import Mathlib

/-!
Shallow embedding of the IonControl script/GUI synchronization core
(`scripting/ScriptHandler.py`) and of the instrument adapter `setValue`
methods (`externalParameter/StandardExternalParameter.py`).

State is passed explicitly; the side effects that matter for the
specification (mutex acquire/release, condition-variable `wakeAll`,
console writes, log calls) are recorded as an event trace emitted by each
handler, in program order.  Python `float` magnitudes are modelled as
rationals, Python unbounded `int` as `ℤ`, Python dicts as association
lists that preserve insertion order and overwrite in place.
-/

namespace IonControl

/-! ### Quantities -/

/-- Modelled from the spec: quantities (of the external `pint`-style
`modules.quantity` library, not part of this repository) carry a magnitude
and a unit string. -/
structure Qty where
  m : ℚ
  u : String
deriving DecidableEq, Repr

/-- Modelled from the spec: conversion factor of a unit string to its base
unit, for the units appearing in the adapter tables. -/
def unitFactor : String → ℚ
  | "Hz" => 1
  | "kHz" => 1000
  | "MHz" => 1000000
  | "THz" => 1000000000000
  | _ => 1

/-- Modelled from the spec: `q.m_as(u)` returns the magnitude of `q`
converted to unit `u`. -/
def m_as (q : Qty) (u : String) : ℚ :=
  q.m * unitFactor q.u / unitFactor u

/-- Python `int(x)` on a float/rational: truncation toward zero. -/
def pyInt (q : ℚ) : ℤ :=
  q.num.tdiv q.den

/-- Python `bool(x)` on a number: true iff nonzero. -/
def pyBool (q : ℚ) : Bool :=
  decide (q ≠ 0)

/-! ### Association lists (Python dicts) -/

/-- Python dict lookup `d[k]` (as an `Option`: `none` models `KeyError`). -/
def alookup {β : Type} : List (String × β) → String → Option β
  | [], _ => none
  | (k, v) :: rest, key => if k = key then some v else alookup rest key

/-- Python dict store `d[k] = v`: overwrites in place, appends if new. -/
def astore {β : Type} : List (String × β) → String → β → List (String × β)
  | [], key, val => [(key, val)]
  | (k, v) :: rest, key, val =>
    if k = key then (key, val) :: rest else (k, v) :: astore rest key val

/-- Python `k in d`. -/
def amem {β : Type} (l : List (String × β)) (key : String) : Bool :=
  (alookup l key).isSome

/-- `QComboBox.findText`: index of the first occurrence, `-1` if absent. -/
def findText : List String → String → ℤ
  | [], _ => -1
  | x :: rest, t =>
    if x = t then 0
    else
      let r := findText rest t
      if r = -1 then -1 else r + 1

/-! ### Condition variables and event traces -/

/-- The condition variables owned by the `Script` entity. -/
inductive CV where
  | guiWait
  | pauseWait
  | scanWait
  | dataWait
  | analysisWait
  | genericWait
  | allDataWait
deriving DecidableEq, Repr

/-- Observable side effects of a handler, in program order. -/
inductive Ev where
  | acquire
  | release
  | wake (c : CV)
  | console (msg : String) (error : Bool)
  | logError (msg : String)
  | logDebug (msg : String)
deriving DecidableEq, Repr

/-- `underLockAux d evs c = true` iff, starting at lock depth `d`, every
`wake c` event in `evs` occurs while the mutex is held (depth `> 0`). -/
def underLockAux : ℕ → List Ev → CV → Bool
  | _, [], _ => true
  | d, Ev.acquire :: rest, c => underLockAux (d + 1) rest c
  | d, Ev.release :: rest, c => underLockAux (d - 1) rest c
  | d, Ev.wake w :: rest, c =>
    (if w = c then decide (0 < d) else true) && underLockAux d rest c
  | d, _ :: rest, c => underLockAux d rest c

/-- Every `wakeAll` on `c` in the trace is issued while the mutex is held. -/
def wakesUnderLock (evs : List Ev) (c : CV) : Bool :=
  underLockAux 0 evs c

/-- Number of `wakeAll` calls on `c` in the trace. -/
def wakeCount (evs : List Ev) (c : CV) : ℕ :=
  (evs.filter (fun e => e = Ev.wake c)).length

/-! ### Consumer thread model -/

/-- Phase of the script-thread consumer of one result slot. -/
inductive Phase where
  | idle
  | waiting
  | woken
deriving DecidableEq, Repr

/-- Modelled from the spec: the `Script` class (the consumer side of the
handshake) is not under `src/`; per the spec a consumer blocks on one
condition variable per result category and a `wakeAll` on it wakes every
thread currently waiting on it, once. -/
structure Consumer where
  cv : CV
  phase : Phase
  wakeups : ℕ
deriving DecidableEq, Repr

/-- Modelled from the spec: effect of one producer event on a consumer; a
`wakeAll` on the consumer's condition variable wakes it exactly once if it
is currently waiting, and has no effect otherwise. -/
def stepConsumer (c : Consumer) : Ev → Consumer
  | Ev.wake w =>
    if w = c.cv ∧ c.phase = Phase.waiting then
      { c with phase := Phase.woken, wakeups := c.wakeups + 1 }
    else c
  | _ => c

/-- Run a consumer over a producer's event trace. -/
def runConsumer (c : Consumer) (evs : List Ev) : Consumer :=
  evs.foldl stepConsumer c

/-! ### Script and GUI state -/

/-- A value that can sit in `script.genericResult`: a quantity, an opaque
payload, a `ScriptException` object stored as a value, or Python `None`. -/
inductive GVal (α : Type) where
  | qty (q : Qty)
  | payload (a : α)
  | scriptExc (msg : String)
  | noneV
deriving DecidableEq, Repr

/-- The mutable fields of the `Script` entity that `ScriptHandler`
reads or writes (`α` is the opaque payload type of the data dicts). -/
structure ScriptState (α : Type) where
  paused : Bool
  stopped : Bool
  waitOnScan : Bool
  repeatFlag : Bool
  scanIsRunning : Bool
  analysisReady : Bool
  dataReady : Bool
  allDataReady : Bool
  exception : Option String
  data : Option α
  allData : Option α
  analysisResults : Option α
  genericResult : GVal α
  isRunning : Bool
deriving DecidableEq, Repr

/-- GUI-owned shared state touched by the handlers under proof.  The
`current*` fields model the widget's loaded setting (`loadSetting` /
`onLoadAnalysisConfiguration` are GUI widget code outside this repository;
they are modelled as selecting the named setting). -/
structure GuiState where
  globalDict : List (String × Qty)
  registeredScans : List String
  currentScan : String
  registeredEvaluations : List String
  currentEvaluation : String
  registeredAnalyses : List String
  currentAnalysis : String
  shutter : ℤ
deriving DecidableEq, Repr

/-- A script-created trace: stored x and y data (numpy arrays as lists). -/
structure PlottedTraceM where
  x : List ℚ
  y : List ℚ
deriving DecidableEq, Repr

/-- The `ScriptHandler` state: the `Script` entity plus the handler-owned
dictionaries. -/
structure SH (α : Type) where
  script : ScriptState α
  gui : GuiState
  globalVariablesRevertDict : List (String × Qty)
  scriptTraces : List (String × PlottedTraceM)
  traceAlreadyCreated : List (String × Bool)
deriving DecidableEq, Repr

/-- Result of an undecorated handler body: new state, event trace, and the
`(error, message)` pair it returns. -/
structure Res (α : Type) where
  state : SH α
  evs : List Ev
  error : Bool
  message : Option String
deriving DecidableEq, Repr

/-- Result of a decorated handler or of a plain slot. -/
structure Out (α : Type) where
  state : SH α
  evs : List Ev
deriving DecidableEq, Repr

/-! ### The `scriptCommand` decorator -/

/-- Python truthiness of the optional message string. -/
def msgTruthy : Option String → Bool
  | some msg => decide (msg ≠ "")
  | none => false

/-- Store a `ScriptException` (by its message) in `script.exception`. -/
def setExc {α : Type} (s : SH α) (msg : String) : SH α :=
  { s with script := { s.script with exception := some msg } }

/-- `ScriptHandler.scriptCommand`: runs the wrapped handler body; if it
reports an error a `ScriptException` is raised, caught, stored in
`script.exception` under the mutex and logged; in all cases `guiWait` is
woken in the `finally` block. -/
def scriptCommand {α : Type} (body : SH α → Res α) (s : SH α) : Out α :=
  let r := body s
  if r.error && msgTruthy r.message then
    let msg := r.message.getD ""
    { state := setExc r.state msg,
      evs := r.evs ++ [Ev.logError msg, Ev.console msg true,
        Ev.acquire, Ev.logError "traceback", Ev.release, Ev.wake CV.guiWait] }
  else if r.error then
    { state := setExc r.state "",
      evs := r.evs ++ [Ev.acquire, Ev.logError "traceback", Ev.release,
        Ev.wake CV.guiWait] }
  else if msgTruthy r.message then
    let msg := r.message.getD ""
    { state := r.state,
      evs := r.evs ++ [Ev.logDebug msg, Ev.console msg false,
        Ev.wake CV.guiWait] }
  else
    { state := r.state, evs := r.evs ++ [Ev.wake CV.guiWait] }

/-! ### Generic call plumbing -/

/-- Python `repr` of a string (single quotes). -/
def pyStrRepr (a : String) : String :=
  "\x27" ++ a ++ "\x27"

/-- Python `str` of a tuple of strings (note the trailing comma of a
one-element tuple). -/
def pyTupleRepr : List String → String
  | [] => "()"
  | [a] => "(" ++ pyStrRepr a ++ ",)"
  | l => "(" ++ String.intercalate ", " (l.map pyStrRepr) ++ ")"

/-- `str` of the `AttributeError` raised by `getattr` on an unknown name. -/
def attrErrMsg (funcname : String) : String :=
  "\x27ScriptHandler\x27 object has no attribute \x27" ++ funcname ++ "\x27"

/-- `ScriptHandler.getGlobal`: returns the quantity stored for an existing
global; for a missing name it returns (does not raise) a
`ScriptException` object. -/
def getGlobal {α : Type} (s : SH α) (name : String) : GVal α :=
  match alookup s.gui.globalDict name with
  | some q => GVal.qty q
  | none => GVal.scriptExc ("Global \x27" ++ name ++ "\x27 does not exist!")

/-- `getattr(self, funcname)(*args)` for the generic-call entry points the
claims exercise: `getGlobal` with one string argument; any other name
raises `AttributeError`, a wrong argument count raises `TypeError`. -/
def dispatchGeneric {α : Type} (s : SH α) (funcname : String)
    (args : List String) : Except String (GVal α) :=
  if funcname = "getGlobal" then
    match args with
    | [name] => Except.ok (getGlobal s name)
    | _ => Except.error "getGlobal() takes 2 positional arguments"
  else Except.error (attrErrMsg funcname)

/-- `ScriptHandler.onGenericCall` (body, before the decorator): stores the
call result in `script.genericResult` under the mutex, then wakes
`genericWait` after leaving the `with` block; an exception inside the
`try` is turned into an `(error, message)` return. -/
def onGenericCallBody {α : Type} (s : SH α) (funcname : String)
    (args : List String) : Res α :=
  match dispatchGeneric s funcname args with
  | Except.ok res =>
    { state := { s with script := { s.script with genericResult := res } },
      evs := [Ev.acquire, Ev.release, Ev.wake CV.genericWait],
      error := false,
      message := some (funcname ++ pyTupleRepr args ++ " executed") }
  | Except.error e =>
    { state := s, evs := [Ev.acquire, Ev.release],
      error := true, message := some e }

/-! ### Global-variable, scan, evaluation, analysis handlers (bodies) -/

/-- `ScriptHandler.onSetGlobal` (body): refuses unknown names; records the
original value in `globalVariablesRevertDict` only the first time a global
is set in a script, then updates the global. -/
def onSetGlobalBody {α : Type} (s : SH α) (name : String) (value : ℚ)
    (unit : String) : Res α :=
  let magValue : Qty := ⟨value, unit⟩
  if amem s.gui.globalDict name = false then
    { state := s, evs := [], error := true,
      message := some ("Global variable " ++ name ++ " does not exist.") }
  else
    let revert := astore s.globalVariablesRevertDict name
      ((alookup s.gui.globalDict name).getD ⟨0, ""⟩)
    let s1 :=
      if amem s.globalVariablesRevertDict name then s
      else { s with globalVariablesRevertDict := revert }
    { state :=
        { s1 with gui :=
            { s1.gui with globalDict := astore s1.gui.globalDict name magValue } },
      evs := [], error := false,
      message := some ("Global variable " ++ name ++ " set to "
        ++ toString value ++ " " ++ unit) }

/-- `ScriptHandler.onSetScan` (body): refuses names absent from the scan
combo box, otherwise loads the named setting. -/
def onSetScanBody {α : Type} (s : SH α) (name : String) : Res α :=
  if findText s.gui.registeredScans name = -1 then
    { state := s, evs := [], error := true,
      message := some ("Scan " ++ name ++ " does not exist.") }
  else
    { state := { s with gui := { s.gui with currentScan := name } },
      evs := [], error := false, message := some ("Scan set to " ++ name) }

/-- `ScriptHandler.onSetEvaluation` (body). -/
def onSetEvaluationBody {α : Type} (s : SH α) (name : String) : Res α :=
  if findText s.gui.registeredEvaluations name = -1 then
    { state := s, evs := [], error := true,
      message := some ("Evaluation " ++ name ++ " does not exist.") }
  else
    { state := { s with gui := { s.gui with currentEvaluation := name } },
      evs := [], error := false,
      message := some ("Evaluation set to " ++ name) }

/-- `ScriptHandler.onSetAnalysis` (body). -/
def onSetAnalysisBody {α : Type} (s : SH α) (name : String) : Res α :=
  if (s.gui.registeredAnalyses.contains name) = false then
    { state := s, evs := [], error := true,
      message := some ("Analysis " ++ name ++ " does not exist.") }
  else
    { state := { s with gui := { s.gui with currentAnalysis := name } },
      evs := [], error := false,
      message := some ("Analysis set to " ++ name) }

/-! ### Shutter -/

/-- The shutter-word update of `ScriptHandler.onSetShutter`:
`(shutter & ~mask) | ((value << index) & mask)` with `mask = 1 << index`,
on Python's unbounded signed integers. -/
def setShutterWord (shutter : ℤ) (index : ℕ) (value : Bool) : ℤ :=
  let mask : ℤ := 1 <<< (index : ℤ)
  Int.lor (Int.land shutter (Int.lnot mask))
    (Int.land ((if value then (1 : ℤ) else 0) <<< (index : ℤ)) mask)

/-- The shutter read of `ScriptHandler.getShutter`:
`bool(shutter >> index & 1)`. -/
def getShutterWord (shutter : ℤ) (index : ℕ) : Bool :=
  decide (Int.land (shutter >>> (index : ℤ)) 1 ≠ 0)

/-- `ScriptHandler.onSetShutter` (body). -/
def onSetShutterBody {α : Type} (s : SH α) (index : ℕ) (value : Bool) :
    Res α :=
  { state :=
      { s with gui :=
          { s.gui with shutter := setShutterWord s.gui.shutter index value } },
    evs := [], error := false,
    message := some ("Set shutter " ++ toString index ++ " to "
      ++ (if value then "True" else "False")) }

/-- `ScriptHandler.getShutter`. -/
def getShutter {α : Type} (s : SH α) (index : ℕ) : Bool :=
  getShutterWord s.gui.shutter index

/-! ### Plotting -/

/-- `ScriptHandler.plotList`: appends or overwrites the x/y data of a
script trace; a missing trace or unequal list lengths are reported as
`(True, message)` without touching any state. -/
def plotList {α : Type} (s : SH α) (xList yList : List ℚ)
    (traceName : String) (overwrite : Bool) : Res α :=
  match alookup s.scriptTraces traceName,
      alookup s.traceAlreadyCreated traceName with
  | some pt, some created =>
    if (xList.length = yList.length) = false then
      { state := s, evs := [], error := true,
        message := some "x and y lists are of unequal lengths" }
    else
      let msg := toString xList ++ ", " ++ toString yList
        ++ " plotted to trace: " ++ traceName
      if created then
        let pt2 : PlottedTraceM :=
          if overwrite = false then ⟨pt.x ++ xList, pt.y ++ yList⟩
          else ⟨xList, yList⟩
        { state := { s with scriptTraces := astore s.scriptTraces traceName pt2 },
          evs := [], error := false, message := some msg }
      else
        let traces := astore s.scriptTraces traceName ⟨xList, yList⟩
        let createdDict := astore s.traceAlreadyCreated traceName true
        { state :=
            { s with scriptTraces := traces, traceAlreadyCreated := createdDict },
          evs := [], error := false, message := some msg }
  | _, _ =>
    { state := s, evs := [], error := true,
      message := some ("Trace " ++ traceName ++ " does not exist") }

/-- `ScriptHandler.onPlotPoint` (body): plots the single point `(x, y)`. -/
def onPlotPointBody {α : Type} (s : SH α) (x y : ℚ) (traceName : String) :
    Res α :=
  plotList s [x] [y] traceName false

/-- `ScriptHandler.onPlotList` (body). -/
def onPlotListBody {α : Type} (s : SH α) (xList yList : List ℚ)
    (traceName : String) (overwrite : Bool) : Res α :=
  plotList s xList yList traceName overwrite

/-! ### Producers and lifecycle slots (no decorator) -/

/-- `ScriptHandler.onData`: under the mutex, stores the evaluated data,
sets `dataReady` and wakes `dataWait`. -/
def onData {α : Type} (s : SH α) (d : α) : Out α :=
  { state := { s with script := { s.script with data := some d, dataReady := true } },
    evs := [Ev.acquire, Ev.wake CV.dataWait, Ev.release] }

/-- `ScriptHandler.onAllData`. -/
def onAllData {α : Type} (s : SH α) (d : α) : Out α :=
  { state := { s with script := { s.script with allData := some d, allDataReady := true } },
    evs := [Ev.acquire, Ev.wake CV.allDataWait, Ev.release] }

/-- `ScriptHandler.onAnalysisResult`. -/
def onAnalysisResult {α : Type} (s : SH α) (d : α) : Out α :=
  { state :=
      { s with script :=
          { s.script with analysisResults := some d, analysisReady := true } },
    evs := [Ev.acquire, Ev.wake CV.analysisWait, Ev.release] }

/-- `ScriptHandler.onStartScript`: if the script is not already running,
clears the revert dictionary and, under the mutex, resets the pause/stop
flags and the stored exception and starts the script thread. -/
def onStartScript {α : Type} (s : SH α) : Out α :=
  if s.script.isRunning then { state := s, evs := [] }
  else
    let sc := { s.script with
                paused := false, stopped := false,
                exception := none, isRunning := true }
    { state := { s with globalVariablesRevertDict := [], script := sc },
      evs := [Ev.acquire, Ev.release] }

/-- `ScriptHandler.onPauseScript`. -/
def onPauseScript {α : Type} (s : SH α) (paused : Bool) : Out α :=
  { state := { s with script := { s.script with paused := paused } },
    evs :=
      if paused then [Ev.acquire, Ev.release]
      else [Ev.acquire, Ev.wake CV.pauseWait, Ev.release] }

/-- `ScriptHandler.onStopScript`: under the mutex, sets the stopped flag,
clears pause/waitOnScan/repeat, sets the three result ready-flags and
wakes `guiWait`, `pauseWait`, `scanWait`, `dataWait`, `analysisWait` and
`genericWait` (exactly the six `wakeAll` calls in the source, in order). -/
def onStopScript {α : Type} (s : SH α) : Out α :=
  let sc := { s.script with
              stopped := true, paused := false,
              waitOnScan := false, repeatFlag := false,
              analysisReady := true, dataReady := true, allDataReady := true }
  { state := { s with script := sc },
    evs := [Ev.acquire, Ev.wake CV.guiWait, Ev.wake CV.pauseWait,
      Ev.wake CV.scanWait, Ev.wake CV.dataWait, Ev.wake CV.analysisWait,
      Ev.wake CV.genericWait, Ev.release] }

/-! ### Decorated handlers -/

/-- Decorated `onSetGlobal`. -/
def onSetGlobal {α : Type} (s : SH α) (name : String) (value : ℚ)
    (unit : String) : Out α :=
  scriptCommand (fun t => onSetGlobalBody t name value unit) s

/-- Decorated `onSetScan`. -/
def onSetScan {α : Type} (s : SH α) (name : String) : Out α :=
  scriptCommand (fun t => onSetScanBody t name) s

/-- Decorated `onSetEvaluation`. -/
def onSetEvaluation {α : Type} (s : SH α) (name : String) : Out α :=
  scriptCommand (fun t => onSetEvaluationBody t name) s

/-- Decorated `onSetAnalysis`. -/
def onSetAnalysis {α : Type} (s : SH α) (name : String) : Out α :=
  scriptCommand (fun t => onSetAnalysisBody t name) s

/-- Decorated `onSetShutter`. -/
def onSetShutter {α : Type} (s : SH α) (index : ℕ) (value : Bool) : Out α :=
  scriptCommand (fun t => onSetShutterBody t index value) s

/-- Decorated `onGenericCall`. -/
def onGenericCall {α : Type} (s : SH α) (funcname : String)
    (args : List String) : Out α :=
  scriptCommand (fun t => onGenericCallBody t funcname args) s

/-- Decorated `onPlotPoint`. -/
def onPlotPoint {α : Type} (s : SH α) (x y : ℚ) (traceName : String) :
    Out α :=
  scriptCommand (fun t => onPlotPointBody t x y traceName) s

/-- Decorated `onPlotList`. -/
def onPlotList {α : Type} (s : SH α) (xList yList : List ℚ)
    (traceName : String) (overwrite : Bool) : Out α :=
  scriptCommand (fun t => onPlotListBody t xList yList traceName overwrite) s

/-! ### Instrument adapters (`StandardExternalParameter.py`) -/

/-- A call into a vendor API, with the value it is handed. -/
inductive VendorCall where
  | ds345SetAttr (attr : String) (value : ℚ)
  | dcSetModeAll (mode : ℤ)
  | dcSetVolt (channel : ℕ) (value : ℚ)
  | rfSetFrequency (rfChannel : String) (value : ℤ)
  | rfSetPower (rfChannel : String) (value : ℚ)
  | rfSetOutputState (rfChannel : String) (value : Bool)
  | pidSetConfig (configName : String) (value : String)
  | ovenSetCurrent (value : ℚ)
  | ovenSetVoltage (value : ℚ)
  | sanaSetChannelVoltage (sanaChannel : String) (value : ℚ)
deriving DecidableEq, Repr

/-- `SRS_DS345_FunctionGenerator._outputLookup`. -/
def ds345OutputLookup : String → Option (String × String)
  | "Frequency" => some ("frequency", "Hz")
  | "Amplitude(Vpp)" => some ("amplitude", "V")
  | "Offset" => some ("offset", "V")
  | "Function" => some ("function", "")
  | _ => none

/-- `SRS_DS345_FunctionGenerator.setValue`: converts to the lookup unit
and hands the result to the DS345 driver; returns the quantity.  `none`
models the `KeyError` on an unknown channel. -/
def SRS_DS345_setValue (channel : String) (v : Qty) :
    Option (Qty × VendorCall) :=
  match ds345OutputLookup channel with
  | some (funcName, unit) =>
    some (v, VendorCall.ds345SetAttr funcName (m_as v unit))
  | none => none

/-- `DCVoltageControl._outputLookup` (the `CHANNEL_*` enum constants of
the external `dc_ctr_enum` module, represented by distinct numbers). -/
def dcOutputLookup : String → Option ℕ
  | "Needle_1_Voltage" => some 0
  | "Needle_2_Voltage" => some 1
  | "Rod_1_Voltage" => some 2
  | "Rod_2_Voltage" => some 3
  | "Rod_3_Voltage" => some 4
  | "Rod_4_Voltage" => some 5
  | _ => none

/-- `DCVoltageControl.setValue`: mode channel converts with `m_as` to the
dimensionless unit, truncates to `int` and raises `ValueError` (`none`)
unless the mode is 0, 1 or 255; voltage channels convert with
`m_as` to volts. -/
def DCVoltageControl_setValue (channel : String) (v : Qty) :
    Option (Qty × VendorCall) :=
  if channel = "Enable Remote Control" then
    let vValue := pyInt (m_as v "")
    if vValue = 0 ∨ vValue = 1 ∨ vValue = 255 then
      some (v, VendorCall.dcSetModeAll vValue)
    else none
  else
    match dcOutputLookup channel with
    | some ch => some (v, VendorCall.dcSetVolt ch (m_as v "V"))
    | none => none

/-- `RFController._outputLookup`: channel name to
`(rf_channel, parameter_name)`. -/
def rfOutputLookup : String → Option (String × String)
  | "frequency_cooling_eom" => some ("four_rod_cooling_eom", "frequency")
  | "frequency_detection_aom" => some ("four_rod_detection_aom", "frequency")
  | "frequency_repump_eom" => some ("four_rod_repump_eom", "frequency")
  | "frequency_cooling_aom" => some ("four_rod_cooling_aom", "frequency")
  | "frequency_optpump_eom" => some ("four_rod_optpump_eom", "frequency")
  | "frequency_microwave_modulation" =>
      some ("four_rod_microwave_modulation", "frequency")
  | "frequency_dmd_aom" => some ("four_rod_dmd_aom", "frequency")
  | "power_cooling_eom" => some ("four_rod_cooling_eom", "power")
  | "power_detection_aom" => some ("four_rod_detection_aom", "power")
  | "power_repump_eom" => some ("four_rod_repump_eom", "power")
  | "power_cooling_aom" => some ("four_rod_cooling_aom", "power")
  | "power_optpump_eom" => some ("four_rod_optpump_eom", "power")
  | "power_microwave_modulation" =>
      some ("four_rod_microwave_modulation", "power")
  | "power_dmd_aom" => some ("four_rod_dmd_aom", "power")
  | "output_state_cooling_eom" => some ("four_rod_cooling_eom", "output_state")
  | "output_state_microwave_modulation" =>
      some ("four_rod_microwave_modulation", "output_state")
  | _ => none

/-- `RFController._unitLookup`. -/
def rfUnitLookup : String → String
  | "frequency" => "Hz"
  | _ => ""

/-- `RFController.setValue`: converts with `m_as` to the parameter's unit,
applies the `_setTypeLookup` coercion (`int` for frequency, `float` for
power, `bool` for output state) and calls `set_<parameter>`. -/
def RFController_setValue (channel : String) (v : Qty) :
    Option (Qty × VendorCall) :=
  match rfOutputLookup channel with
  | some (rfChannel, param) =>
    if param = "frequency" then
      some (v, VendorCall.rfSetFrequency rfChannel (pyInt (m_as v (rfUnitLookup param))))
    else if param = "power" then
      some (v, VendorCall.rfSetPower rfChannel (m_as v (rfUnitLookup param)))
    else
      some (v, VendorCall.rfSetOutputState rfChannel (pyBool (m_as v (rfUnitLookup param))))
  | none => none

/-- `LaserFreqPID._outputLookup`: channel name to
`(config_name, unit, set_func)`; `set_func` is the serialization applied
to the converted magnitude before it is written into the client config
(`str([x])` for the setpoint, `str(bool(v))` for the lock flag).  The
`get_func` components are used only by `getValue` and are omitted. -/
def pidOutputLookup : String → Option (String × String × (ℚ → String))
  | "FrequencySetpoint" =>
      some ("freq_setpoint", "THz", fun x => "[" ++ toString x ++ "]")
  | "EnableLock" =>
      some ("enable_lock", "", fun v => if pyBool v then "True" else "False")
  | _ => none

/-- `LaserFreqPID.setValue`: converts with `m_as` to the lookup unit,
serializes with `set_func`, stores the result in the client config and
pushes it to the PID server; returns the quantity.  `none` models the
`KeyError` on an unknown channel. -/
def LaserFreqPID_setValue (channel : String) (v : Qty) :
    Option (Qty × VendorCall) :=
  match pidOutputLookup channel with
  | some (configName, unit, setFunc) =>
    some (v, VendorCall.pidSetConfig configName (setFunc (m_as v unit)))
  | none => none

/-- `FourRodOvenControl.setValue`: two independent string comparisons
(on distinct literals, hence exclusive); the current/voltage set
channels convert with `m_as` to amperes/volts and call the oven client,
every other channel (the read-only ones) issues no vendor call; the
quantity is returned in all cases and nothing raises. -/
def FourRodOvenControl_setValue (channel : String) (v : Qty) :
    Qty × Option VendorCall :=
  if channel = "Oven current set" then
    (v, some (VendorCall.ovenSetCurrent (m_as v "A")))
  else if channel = "Oven voltage set" then
    (v, some (VendorCall.ovenSetVoltage (m_as v "V")))
  else (v, none)

/-- `SANAControl._outputLookup`. -/
def sanaOutputLookup : String → Option String
  | "dmd_FP_mirror_horizontal" => some "2A"
  | "dmd_FP_mirror_vertical" => some "2B"
  | _ => none

/-- `SANAControl.setValue`: converts with `m_as` to volts and hands the
result to `set_channel_voltage`; returns the quantity.  `none` models
the `KeyError` on an unknown channel. -/
def SANAControl_setValue (channel : String) (v : Qty) :
    Option (Qty × VendorCall) :=
  match sanaOutputLookup channel with
  | some ch => some (v, VendorCall.sanaSetChannelVoltage ch (m_as v "V"))
  | none => none

/-! ### Sample states for concrete evaluation -/

/-- A concrete `Script` state. -/
def sampleScript : ScriptState ℕ :=
  { paused := false, stopped := false, waitOnScan := false,
    repeatFlag := false, scanIsRunning := false, analysisReady := false,
    dataReady := false, allDataReady := false, exception := none,
    data := none, allData := none, analysisResults := none,
    genericResult := GVal.noneV, isRunning := true }

/-- A concrete GUI state with one registered global, scan, evaluation and
analysis. -/
def sampleGui : GuiState :=
  { globalDict := [("rfPower", ⟨1, "V"⟩)],
    registeredScans := ["Scan_A"], currentScan := "Scan_A",
    registeredEvaluations := ["Eval_A"], currentEvaluation := "Eval_A",
    registeredAnalyses := ["Ana_A"], currentAnalysis := "Ana_A",
    shutter := 5 }

/-- A concrete handler state. -/
def sampleSH : SH ℕ :=
  { script := sampleScript, gui := sampleGui,
    globalVariablesRevertDict := [],
    scriptTraces := [("t1", ⟨[1], [2]⟩)],
    traceAlreadyCreated := [("t1", true)] }

/-- A concrete handler state whose script thread is not running. -/
def sampleNotRunning : SH ℕ :=
  { sampleSH with script := { sampleScript with isRunning := false } }

/-- Filter of the console events reporting an error. -/
def errorConsoleEvents (evs : List Ev) : List Ev :=
  evs.filter fun e =>
    match e with
    | Ev.console _ true => true
    | _ => false

/-! ### Helper lemmas -/

theorem alookup_astore_self {β : Type} (l : List (String × β)) (k : String)
    (v : β) : alookup (astore l k v) k = some v := by
  induction l with
  | nil => simp [astore, alookup]
  | cons p rest ih =>
    obtain ⟨k', v'⟩ := p
    by_cases h : k' = k
    · simp [astore, alookup, h]
    · simp [astore, alookup, h, ih]

theorem alookup_astore_other {β : Type} (l : List (String × β)) (k k' : String)
    (v : β) (h : k' ≠ k) : alookup (astore l k v) k' = alookup l k' := by
  have h2 : ¬ k = k' := fun hh => h hh.symm
  induction l with
  | nil => simp [astore, alookup, h2]
  | cons p rest ih =>
    obtain ⟨k0, v0⟩ := p
    by_cases h0 : k0 = k
    · subst h0
      simp [astore, alookup, h2]
    · simp only [astore, if_neg h0]
      by_cases h1 : k0 = k'
      · simp [alookup, h1]
      · simp [alookup, h1, ih]

theorem findText_nonneg_or (l : List String) (t : String) :
    findText l t = -1 ∨ 0 ≤ findText l t := by
  induction l with
  | nil => simp [findText]
  | cons x rest ih =>
    by_cases hx : x = t
    · simp [findText, hx]
    · rcases ih with h | h
      · simp [findText, hx, h]
      · by_cases hr : findText rest t = -1
        · simp [findText, hx, hr]
        · simp only [findText, if_neg hx, if_neg hr]
          right; omega

theorem findText_eq_neg_one_iff (l : List String) (t : String) :
    findText l t = -1 ↔ t ∉ l := by
  induction l with
  | nil => simp [findText]
  | cons x rest ih =>
    by_cases hx : x = t
    · subst hx
      simp [findText]
    · by_cases hr : findText rest t = -1
      · have hm : t ∉ rest := ih.mp hr
        have hne : ¬ t = x := fun hh => hx hh.symm
        simp [findText, hx, hr, hm, hne]
      · have hge : 0 ≤ findText rest t := (findText_nonneg_or rest t).resolve_left hr
        have hm : t ∈ rest := by
          by_contra hmm
          exact hr (ih.mpr hmm)
        simp only [findText, if_neg hx, if_neg hr, List.mem_cons]
        constructor
        · intro hc
          omega
        · intro hc
          exact absurd (Or.inr hm) hc

theorem contains_eq_false_iff (l : List String) (t : String) :
    l.contains t = false ↔ t ∉ l := by
  simp only [List.contains]
  rw [Bool.eq_false_iff]
  exact not_congr List.elem_iff

theorem length_zero_eq_empty (a : String) (h : a.length = 0) : a = "" := by
  cases a with
  | mk l =>
    cases l with
    | nil => rfl
    | cons c cs => simp [String.length] at h

/-- A string with a nonempty left part is nonempty. -/
theorem append_ne_empty_left (a b : String) (h : a ≠ "") : a ++ b ≠ "" := by
  intro hc
  apply h
  have hl : a.length + b.length = 0 := by
    have h2 := congrArg String.length hc
    simpa [String.length_append] using h2
  exact length_zero_eq_empty a (by omega)

/-- A string with a nonempty right part is nonempty. -/
theorem append_ne_empty_right (a b : String) (h : b ≠ "") : a ++ b ≠ "" := by
  intro hc
  apply h
  have hl : a.length + b.length = 0 := by
    have h2 := congrArg String.length hc
    simpa [String.length_append] using h2
  exact length_zero_eq_empty b (by omega)

theorem msgTruthy_of_ne {msg : String} (h : msg ≠ "") :
    msgTruthy (some msg) = true := by
  simp [msgTruthy, h]

/-- The decorator keeps the body's state unchanged when the body reports
no error. -/
theorem scriptCommand_state_of_no_error {α : Type} (body : SH α → Res α)
    (s : SH α) (h : (body s).error = false) :
    (scriptCommand body s).state = (body s).state := by
  by_cases hm : msgTruthy (body s).message <;> simp [scriptCommand, h, hm]

/-- The revert dictionary produced by one `onSetGlobal` call. -/
theorem onSetGlobalBody_revert {α : Type} (s : SH α) (name : String)
    (v : ℚ) (u : String) :
    (onSetGlobalBody s name v u).state.globalVariablesRevertDict =
      if amem s.gui.globalDict name = false then s.globalVariablesRevertDict
      else if amem s.globalVariablesRevertDict name then
        s.globalVariablesRevertDict
      else
        astore s.globalVariablesRevertDict name
          ((alookup s.gui.globalDict name).getD ⟨0, ""⟩) := by
  by_cases h1 : amem s.gui.globalDict name = false
  · simp [onSetGlobalBody, h1]
  · by_cases h2 : amem s.globalVariablesRevertDict name <;>
      simp [onSetGlobalBody, h1, h2]

/-- The global dictionary is untouched by `onSetGlobal` on another name,
and updated in place on the set name. -/
theorem onSetGlobalBody_globalDict {α : Type} (s : SH α) (name : String)
    (v : ℚ) (u : String) (h : amem s.gui.globalDict name = false → False) :
    (onSetGlobalBody s name v u).state.gui.globalDict =
      astore s.gui.globalDict name ⟨v, u⟩ := by
  by_cases h1 : amem s.gui.globalDict name = false
  · exact absurd h1 h
  · by_cases h2 : amem s.globalVariablesRevertDict name <;>
      simp [onSetGlobalBody, h1, h2]

/-! ### C3: unknown names are rejected without touching shared state -/

/-- C3: for a name that is not registered, `onSetGlobal`, `onSetScan`,
`onSetEvaluation` and `onSetAnalysis` return `error = True` with a
descriptive message and leave the whole handler state (globals, active
scan/evaluation/analysis, revert dictionary) unchanged; in particular
`onSetScan` on an unregistered name returns
`(True, "Scan <name> does not exist.")`, and even the decorated handler
leaves the GUI state unchanged. -/
theorem setHandlers_reject_unknown_names {α : Type} (s : SH α)
    (g sc ev an : String) (value : ℚ) (unit : String)
    (hg : amem s.gui.globalDict g = false)
    (hs : sc ∉ s.gui.registeredScans)
    (he : ev ∉ s.gui.registeredEvaluations)
    (ha : an ∉ s.gui.registeredAnalyses) :
    onSetGlobalBody s g value unit =
      { state := s, evs := [], error := true,
        message := some ("Global variable " ++ g ++ " does not exist.") } ∧
    onSetScanBody s sc =
      { state := s, evs := [], error := true,
        message := some ("Scan " ++ sc ++ " does not exist.") } ∧
    onSetEvaluationBody s ev =
      { state := s, evs := [], error := true,
        message := some ("Evaluation " ++ ev ++ " does not exist.") } ∧
    onSetAnalysisBody s an =
      { state := s, evs := [], error := true,
        message := some ("Analysis " ++ an ++ " does not exist.") } ∧
    (onSetScan s sc).state.gui = s.gui ∧
    (onSetGlobal s g value unit).state.gui = s.gui ∧
    (onSetGlobal s g value unit).state.globalVariablesRevertDict =
      s.globalVariablesRevertDict := by
  have hsc : onSetScanBody s sc =
      { state := s, evs := [], error := true,
        message := some ("Scan " ++ sc ++ " does not exist.") } := by
    simp [onSetScanBody, (findText_eq_neg_one_iff _ _).mpr hs]
  have hgl : onSetGlobalBody s g value unit =
      { state := s, evs := [], error := true,
        message := some ("Global variable " ++ g ++ " does not exist.") } := by
    simp [onSetGlobalBody, hg]
  have hscanMsg : msgTruthy (some ("Scan " ++ sc ++ " does not exist.")) = true :=
    msgTruthy_of_ne (append_ne_empty_right _ _ (by decide))
  have hglMsg : msgTruthy
      (some ("Global variable " ++ g ++ " does not exist.")) = true :=
    msgTruthy_of_ne (append_ne_empty_right _ _ (by decide))
  refine ⟨hgl, hsc, ?_, ?_, ?_, ?_, ?_⟩
  · simp [onSetEvaluationBody, (findText_eq_neg_one_iff _ _).mpr he]
  · have hca : s.gui.registeredAnalyses.contains an = false :=
      (contains_eq_false_iff _ _).mpr ha
    simp [onSetAnalysisBody, hca]
    exact ha
  · simp [onSetScan, scriptCommand, hsc, hscanMsg, setExc]
  · simp [onSetGlobal, scriptCommand, hgl, hglMsg, setExc]
  · simp [onSetGlobal, scriptCommand, hgl, hglMsg, setExc]

/-- Witness for C3 at a concrete state: `onSetScan("Scan_B")` with only
`"Scan_A"` registered. -/
theorem setHandlers_reject_unknown_names_witness :
    onSetScanBody sampleSH "Scan_B" =
      { state := sampleSH, evs := [], error := true,
        message := some "Scan Scan_B does not exist." } :=
  (setHandlers_reject_unknown_names sampleSH "noSuchGlobal" "Scan_B" "Eval_B"
    "Ana_B" 1 "V" (by decide) (by decide) (by decide) (by decide)).2.1

/-! ### C4: idempotent revert snapshot -/

/-- C4: for an existing global, the first `onSetGlobal` of a script run
records the pre-call value in `globalVariablesRevertDict`; any later
`onSetGlobal` on a name already in the revert dictionary leaves the
dictionary unchanged (so the composition of two calls still holds the
original value), and starting a new script run clears the dictionary. -/
theorem onSetGlobal_revert_snapshot {α : Type} (s t t2 : SH α)
    (name : String) (q0 : Qty) (v1 v2 v3 : ℚ) (u1 u2 u3 : String)
    (hq : alookup s.gui.globalDict name = some q0)
    (hfirst : amem s.globalVariablesRevertDict name = false)
    (hmem : amem t.globalVariablesRevertDict name = true)
    (hrun : t2.script.isRunning = false) :
    alookup (onSetGlobalBody s name v1 u1).state.globalVariablesRevertDict
      name = some q0 ∧
    (onSetGlobalBody t name v3 u3).state.globalVariablesRevertDict =
      t.globalVariablesRevertDict ∧
    alookup (onSetGlobalBody (onSetGlobalBody s name v1 u1).state name
      v2 u2).state.globalVariablesRevertDict name = some q0 ∧
    (onStartScript t2).state.globalVariablesRevertDict = [] := by
  have hmemG : amem s.gui.globalDict name = true := by
    simp [amem, hq]
  have h1 : (onSetGlobalBody s name v1 u1).state.globalVariablesRevertDict =
      astore s.globalVariablesRevertDict name q0 := by
    rw [onSetGlobalBody_revert, if_neg (by simp [hmemG]), if_neg (by simp [hfirst]),
      hq]
    rfl
  have hsnap : alookup
      (onSetGlobalBody s name v1 u1).state.globalVariablesRevertDict name =
      some q0 := by
    rw [h1]
    exact alookup_astore_self _ _ _
  have hlater : ∀ u : SH α, amem u.globalVariablesRevertDict name = true →
      ∀ v : ℚ, ∀ w : String,
      (onSetGlobalBody u name v w).state.globalVariablesRevertDict =
        u.globalVariablesRevertDict := by
    intro u hu v w
    rw [onSetGlobalBody_revert]
    by_cases h2 : amem u.gui.globalDict name = false
    · simp [h2]
    · simp [h2, hu]
  refine ⟨hsnap, hlater t hmem v3 u3, ?_, ?_⟩
  · rw [hlater _ (by simp [amem, hsnap]) v2 u2]
    exact hsnap
  · simp [onStartScript, hrun]

/-- Witness for C4 at a concrete state: successive sets of `rfPower` to
2 V and 3 V leave the snapshot at the original 1 V. -/
theorem onSetGlobal_revert_snapshot_witness :
    alookup (onSetGlobalBody (onSetGlobalBody sampleSH "rfPower" 2 "V").state
      "rfPower" 3 "V").state.globalVariablesRevertDict "rfPower" =
      some ⟨1, "V"⟩ :=
  (onSetGlobal_revert_snapshot sampleSH
    (onSetGlobalBody sampleSH "rfPower" 2 "V").state sampleNotRunning
    "rfPower" ⟨1, "V"⟩ 2 3 4 "V" "V" "V" (by decide) (by decide) (by decide)
    (by decide)).2.2.1

/-! ### C9: plotList error paths -/

/-- C9: for an existing trace, `plotList` (and thus `onPlotList`) with
lists of unequal lengths returns
`(True, "x and y lists are of unequal lengths")` and leaves the whole
state — in particular the stored x/y data and `traceAlreadyCreated` —
unchanged; for a trace name absent from `scriptTraces`, `plotList` (and
`onPlotPoint`) returns `(True, "Trace <name> does not exist")` without
creating any trace. -/
theorem plotList_error_paths {α : Type} (s : SH α) (xs ys : List ℚ)
    (tn tn2 : String) (ow : Bool) (pt : PlottedTraceM) (cr : Bool) (x y : ℚ)
    (hpt : alookup s.scriptTraces tn = some pt)
    (hcr : alookup s.traceAlreadyCreated tn = some cr)
    (hlen : xs.length ≠ ys.length)
    (hmiss : alookup s.scriptTraces tn2 = none) :
    plotList s xs ys tn ow =
      { state := s, evs := [], error := true,
        message := some "x and y lists are of unequal lengths" } ∧
    onPlotListBody s xs ys tn ow =
      { state := s, evs := [], error := true,
        message := some "x and y lists are of unequal lengths" } ∧
    plotList s xs ys tn2 ow =
      { state := s, evs := [], error := true,
        message := some ("Trace " ++ tn2 ++ " does not exist") } ∧
    onPlotPointBody s x y tn2 =
      { state := s, evs := [], error := true,
        message := some ("Trace " ++ tn2 ++ " does not exist") } := by
  have h1 : plotList s xs ys tn ow =
      { state := s, evs := [], error := true,
        message := some "x and y lists are of unequal lengths" } := by
    simp [plotList, hpt, hcr, hlen]
  have h2 : plotList s xs ys tn2 ow =
      { state := s, evs := [], error := true,
        message := some ("Trace " ++ tn2 ++ " does not exist") } := by
    simp [plotList, hmiss]
  have h3 : plotList s [x] [y] tn2 false =
      { state := s, evs := [], error := true,
        message := some ("Trace " ++ tn2 ++ " does not exist") } := by
    simp [plotList, hmiss]
  exact ⟨h1, h1, h2, h3⟩

/-- Witness for C9 at a concrete state. -/
theorem plotList_error_paths_witness :
    plotList sampleSH [1, 2] [3] "t1" false =
      { state := sampleSH, evs := [], error := true,
        message := some "x and y lists are of unequal lengths" } ∧
    plotList sampleSH [1, 2] [3] "nope" false =
      { state := sampleSH, evs := [], error := true,
        message := some "Trace nope does not exist" } := by
  have h := plotList_error_paths sampleSH [1, 2] [3] "t1" "nope" false
    ⟨[1], [2]⟩ true 1 2 (by decide) (by decide) (by decide) (by decide)
  exact ⟨h.1, h.2.2.1⟩

/-! ### C10: shutter bit manipulation -/

theorem int_testBit_one_shiftLeft (i j : ℕ) :
    Int.testBit ((1 : ℤ) <<< (i : ℤ)) j = decide (i = j) := by
  have h2 : (1 : ℤ) <<< (i : ℤ) = (((2 ^ i : ℕ)) : ℤ) := by
    rw [show ((1 : ℤ)) = ((1 : ℕ) : ℤ) from rfl, Int.shiftLeft_coe_nat,
      Nat.shiftLeft_eq, one_mul]
  rw [h2]
  show Nat.testBit (2 ^ i) j = decide (i = j)
  exact Nat.testBit_two_pow

theorem int_testBit_zeroInt (j : ℕ) : Int.testBit 0 j = false := by
  show Int.testBit (Int.ofNat 0) j = false
  simp only [Int.testBit]
  exact Nat.zero_testBit j

theorem int_testBit_shiftRight (x : ℤ) (i j : ℕ) :
    Int.testBit (x >>> (i : ℤ)) j = Int.testBit x (i + j) := by
  cases x with
  | ofNat m =>
    rw [show Int.ofNat m = ((m : ℕ) : ℤ) from rfl, Int.shiftRight_coe_nat]
    simp only [Int.testBit]
    exact Nat.testBit_shiftRight m
  | negSucc m =>
    rw [Int.shiftRight_negSucc]
    simp only [Int.testBit]
    rw [Nat.testBit_shiftRight]

theorem testBit_one_succ (k : ℕ) : Nat.testBit 1 (k + 1) = false := by
  rw [show (1 : ℕ) = 2 ^ 0 by norm_num, Nat.testBit_two_pow]
  simp

theorem int_land_one (x : ℤ) :
    Int.land x 1 = if Int.testBit x 0 then 1 else 0 := by
  cases x with
  | ofNat m =>
    show Int.land (Int.ofNat m) (Int.ofNat 1) = _
    simp only [Int.land, Int.testBit]
    rw [Nat.and_one_is_mod]
    rcases Nat.mod_two_eq_zero_or_one m with h | h <;>
      simp [Nat.testBit_zero, h]
  | negSucc m =>
    show Int.land (Int.negSucc m) (Int.ofNat 1) = _
    simp only [Int.land, Int.testBit]
    rcases Nat.mod_two_eq_zero_or_one m with h | h
    · have h2 : Nat.ldiff 1 m = 1 := by
        apply Nat.eq_of_testBit_eq
        intro k
        rw [Nat.testBit_ldiff]
        cases k with
        | zero => simp [Nat.testBit_zero, h]
        | succ k => simp [testBit_one_succ]
      simp [h2, Nat.testBit_zero, h]
    · have h2 : Nat.ldiff 1 m = 0 := by
        apply Nat.eq_of_testBit_eq
        intro k
        rw [Nat.testBit_ldiff]
        cases k with
        | zero => simp [Nat.testBit_zero, h]
        | succ k => simp [testBit_one_succ]
      simp [h2, Nat.testBit_zero, h]

/-- The shutter update writes `value` at bit `index` and preserves every
other bit, on any (possibly negative) shutter word. -/
theorem testBit_setShutterWord (s : ℤ) (i j : ℕ) (v : Bool) :
    Int.testBit (setShutterWord s i v) j =
      if j = i then v else Int.testBit s j := by
  have hz : ((0 : ℤ) <<< (i : ℤ)) = 0 := by
    rw [show (0 : ℤ) = ((0 : ℕ) : ℤ) from rfl, Int.shiftLeft_coe_nat,
      Nat.zero_shiftLeft]
  unfold setShutterWord
  simp only [Int.testBit_lor, Int.testBit_land, Int.testBit_lnot,
    int_testBit_one_shiftLeft]
  by_cases hij : j = i
  · subst hij
    cases v <;>
      simp [hz, int_testBit_one_shiftLeft, int_testBit_zeroInt]
  · have hij2 : ¬ (i = j) := fun hh => hij hh.symm
    cases v <;>
      simp [hz, hij, hij2, int_testBit_one_shiftLeft, int_testBit_zeroInt]

/-- `getShutter` reads exactly the indexed bit. -/
theorem getShutterWord_eq_testBit (s : ℤ) (i : ℕ) :
    getShutterWord s i = Int.testBit s i := by
  unfold getShutterWord
  rw [int_land_one, int_testBit_shiftRight]
  by_cases h : Int.testBit s (i + 0) = true
  · simp only [Nat.add_zero] at h
    simp [h]
  · simp only [Nat.add_zero] at h
    simp [h, Bool.eq_false_iff.mpr h]

/-- C10: `onSetShutter(index, value)` writes a shutter word whose bit at
`index` equals `value` and whose other bits are unchanged, so a
subsequent `getShutter(index)` returns `value` and `getShutter(j)` for
`j ≠ index` returns the same result as before. -/
theorem onSetShutter_getShutter {α : Type} (s : SH α) (index j : ℕ)
    (value : Bool) (h : j ≠ index) :
    Int.testBit (onSetShutter s index value).state.gui.shutter index =
      value ∧
    Int.testBit (onSetShutter s index value).state.gui.shutter j =
      Int.testBit s.gui.shutter j ∧
    getShutter (onSetShutter s index value).state index = value ∧
    getShutter (onSetShutter s index value).state j = getShutter s j := by
  have hstate : (onSetShutter s index value).state =
      (onSetShutterBody s index value).state :=
    scriptCommand_state_of_no_error _ s rfl
  have hsh : (onSetShutterBody s index value).state.gui.shutter =
      setShutterWord s.gui.shutter index value := rfl
  rw [hstate]
  simp only [getShutter, hsh, getShutterWord_eq_testBit,
    testBit_setShutterWord]
  exact ⟨by simp, by simp [h], by simp, by simp [h]⟩

/-- Witness for C10 at a concrete state: set bit 1 of shutter word 5. -/
theorem onSetShutter_getShutter_witness :
    getShutter (onSetShutter sampleSH 1 true).state 1 = true ∧
    getShutter (onSetShutter sampleSH 1 true).state 0 = getShutter sampleSH 0 := by
  have h := onSetShutter_getShutter sampleSH 1 0 true (by decide)
  exact ⟨h.2.2.1, h.2.2.2⟩

/-! ### Decorator trace lemmas -/

theorem wakeCount_append (a b : List Ev) (c : CV) :
    wakeCount (a ++ b) c = wakeCount a c + wakeCount b c := by
  simp [wakeCount, List.filter_append]

/-- The decorator always appends exactly one `guiWait` wake to the
body's trace. -/
theorem scriptCommand_wakes_guiWait {α : Type} (body : SH α → Res α)
    (s : SH α) :
    wakeCount (scriptCommand body s).evs CV.guiWait =
      wakeCount (body s).evs CV.guiWait + 1 := by
  by_cases he : (body s).error = true <;>
    by_cases hm : msgTruthy (body s).message = true <;>
      simp [scriptCommand, he, hm, Bool.not_eq_true, wakeCount_append,
        wakeCount, List.filter]

/-- When the body emits no events of its own, the decorator's `guiWait`
wake is issued once and with the mutex released. -/
theorem scriptCommand_guiWait_after_release {α : Type} (body : SH α → Res α)
    (s : SH α) (h : (body s).evs = []) :
    wakesUnderLock (scriptCommand body s).evs CV.guiWait = false ∧
    wakeCount (scriptCommand body s).evs CV.guiWait = 1 := by
  by_cases he : (body s).error = true <;>
    by_cases hm : msgTruthy (body s).message = true <;>
      simp [scriptCommand, he, hm, Bool.not_eq_true, h, wakesUnderLock,
        underLockAux, wakeCount, List.filter]

/-- On the exceptional path the decorator stores the `ScriptException`
message in `script.exception`. -/
theorem scriptCommand_stores_exception {α : Type} (body : SH α → Res α)
    (s : SH α) (herr : (body s).error = true) :
    (scriptCommand body s).state.script.exception =
      some (if msgTruthy (body s).message then (body s).message.getD ""
        else "") := by
  by_cases hm : msgTruthy (body s).message = true <;>
    simp [scriptCommand, herr, hm, Bool.not_eq_true, setExc]

/-! ### C1: onStopScript wakes six of the seven condition variables -/

/-- C1 (behaviour at the bug): `onStopScript` sets the stopped flag,
clears the pause flag, sets all three result ready-flags, and wakes
`guiWait`, `pauseWait`, `scanWait`, `dataWait`, `analysisWait` and
`genericWait` exactly once each — but it never wakes `allDataWait`, so a
consumer waiting on `allDataWait` when stop-script fires stays waiting,
contradicting the docstring "wakes up all waitConditions". -/
theorem onStopScript_trace {α : Type} (s : SH α) :
    (onStopScript s).state.script.stopped = true ∧
    (onStopScript s).state.script.paused = false ∧
    (onStopScript s).state.script.dataReady = true ∧
    (onStopScript s).state.script.allDataReady = true ∧
    (onStopScript s).state.script.analysisReady = true ∧
    wakeCount (onStopScript s).evs CV.guiWait = 1 ∧
    wakeCount (onStopScript s).evs CV.pauseWait = 1 ∧
    wakeCount (onStopScript s).evs CV.scanWait = 1 ∧
    wakeCount (onStopScript s).evs CV.dataWait = 1 ∧
    wakeCount (onStopScript s).evs CV.analysisWait = 1 ∧
    wakeCount (onStopScript s).evs CV.genericWait = 1 ∧
    wakeCount (onStopScript s).evs CV.allDataWait = 0 ∧
    runConsumer ⟨CV.allDataWait, Phase.waiting, 0⟩ (onStopScript s).evs =
      ⟨CV.allDataWait, Phase.waiting, 0⟩ :=
  ⟨rfl, rfl, rfl, rfl, rfl, rfl, rfl, rfl, rfl, rfl, rfl, rfl, rfl⟩

/-! ### C2: exceptional path wakes guiWait but not genericWait -/

/-- C2 counterexample: on the exceptional path of `onGenericCall` (an
unknown function name) the exception is stored and `guiWait` is woken,
but `genericWait` — which the claim says is woken even on the exceptional
path — receives no `wakeAll` at all. -/
theorem onGenericCall_exceptional_counterexample :
    (onGenericCall sampleSH "noSuchFunc" []).state.script.exception =
      some (attrErrMsg "noSuchFunc") ∧
    wakeCount (onGenericCall sampleSH "noSuchFunc" []).evs CV.guiWait = 1 ∧
    wakeCount (onGenericCall sampleSH "noSuchFunc" []).evs
      CV.genericWait = 0 :=
  ⟨rfl, rfl, rfl⟩

/-- C2 (amended): every exception reported by a handler body is caught by
the `scriptCommand` boundary, stored in `script.exception` under the
mutex, logged, and `guiWait` is still woken (one extra wake) — but the
`genericWait` condition variable of `onGenericCall` is woken only on the
success path: on the exceptional path its trace contains no
`genericWait` wake, before or after decoration. -/
theorem scriptCommand_exceptional_path {α : Type} (body : SH α → Res α)
    (s t : SH α) (funcname : String) (args : List String) (e : String)
    (herr : (body s).error = true)
    (hd : dispatchGeneric t funcname args = Except.error e) :
    (scriptCommand body s).state.script.exception =
      some (if msgTruthy (body s).message then (body s).message.getD ""
        else "") ∧
    Ev.logError "traceback" ∈ (scriptCommand body s).evs ∧
    wakeCount (scriptCommand body s).evs CV.guiWait =
      wakeCount (body s).evs CV.guiWait + 1 ∧
    wakeCount (onGenericCallBody t funcname args).evs CV.genericWait = 0 ∧
    wakeCount (onGenericCall t funcname args).evs CV.genericWait = 0 := by
  have hbody : onGenericCallBody t funcname args =
      { state := t, evs := [Ev.acquire, Ev.release], error := true,
        message := some e } := by
    simp [onGenericCallBody, hd]
  refine ⟨scriptCommand_stores_exception body s herr, ?_,
    scriptCommand_wakes_guiWait body s, ?_, ?_⟩
  · by_cases hm : msgTruthy (body s).message = true <;>
      simp [scriptCommand, herr, hm, Bool.not_eq_true]
  · simp [hbody, wakeCount, List.filter]
  · by_cases hm : msgTruthy (some e) = true <;>
      simp [onGenericCall, scriptCommand, hbody, hm, Bool.not_eq_true,
        wakeCount, List.filter]

/-- Witness for the amended C2 at a concrete input. -/
theorem scriptCommand_exceptional_path_witness :
    wakeCount (onGenericCall sampleSH "noSuchFunc" []).evs
      CV.genericWait = 0 :=
  (scriptCommand_exceptional_path
    (fun x => onGenericCallBody x "noSuchFunc" []) sampleSH sampleSH
    "noSuchFunc" [] (attrErrMsg "noSuchFunc") rfl rfl).2.2.2.2

/-! ### C5: which producers signal under the mutex -/

/-- C5 counterexample: the success path of `onGenericCall` stores the
result under the mutex but issues its `genericWait` wake only after the
`with` block has released the mutex, and a decorated command (here
`onSetScan`) wakes `guiWait` without holding the mutex at all —
contradicting the claim that every producer path signals under the lock. -/
theorem onGenericCall_wake_outside_lock_counterexample :
    (onGenericCallBody sampleSH "getGlobal" ["rfPower"]).state.script.genericResult =
      GVal.qty ⟨1, "V"⟩ ∧
    wakeCount (onGenericCallBody sampleSH "getGlobal" ["rfPower"]).evs
      CV.genericWait = 1 ∧
    wakesUnderLock (onGenericCallBody sampleSH "getGlobal" ["rfPower"]).evs
      CV.genericWait = false ∧
    wakesUnderLock (onSetScan sampleSH "Scan_A").evs CV.guiWait = false :=
  ⟨rfl, rfl, rfl, rfl⟩

/-- C5 (amended): `onData`, `onAllData` and `onAnalysisResult` wake their
condition variable exactly once and while holding the mutex; the
generic-call producer stores `genericResult` under the mutex but wakes
`genericWait` after releasing it, and the `scriptCommand` wrapper wakes
`guiWait` with the mutex released. -/
theorem producer_wake_lock_discipline {α : Type} (s t u : SH α) (d : α)
    (name scanName : String) :
    wakesUnderLock (onData s d).evs CV.dataWait = true ∧
    wakeCount (onData s d).evs CV.dataWait = 1 ∧
    wakesUnderLock (onAllData s d).evs CV.allDataWait = true ∧
    wakeCount (onAllData s d).evs CV.allDataWait = 1 ∧
    wakesUnderLock (onAnalysisResult s d).evs CV.analysisWait = true ∧
    wakeCount (onAnalysisResult s d).evs CV.analysisWait = 1 ∧
    (onGenericCallBody t "getGlobal" [name]).state.script.genericResult =
      getGlobal t name ∧
    wakeCount (onGenericCallBody t "getGlobal" [name]).evs
      CV.genericWait = 1 ∧
    wakesUnderLock (onGenericCallBody t "getGlobal" [name]).evs
      CV.genericWait = false ∧
    wakesUnderLock (onSetScan u scanName).evs CV.guiWait = false ∧
    wakeCount (onSetScan u scanName).evs CV.guiWait = 1 := by
  have hevs : (onSetScanBody u scanName).evs = [] := by
    by_cases hf : findText u.gui.registeredScans scanName = -1 <;>
      simp [onSetScanBody, hf]
  have hwrap := scriptCommand_guiWait_after_release
    (fun x => onSetScanBody x scanName) u hevs
  exact ⟨rfl, rfl, rfl, rfl, rfl, rfl, rfl, rfl, rfl, hwrap.1, hwrap.2⟩

/-! ### C6: how validation errors surface -/

/-- C6 counterexample: `getGlobal` on a nonexistent name reached through
`onGenericCall` reports success — the `ScriptException` object is stored
as the generic result value, `script.exception` stays `None` and nothing
is written to the console as an error, contradicting the claim that the
failure is written to the console and stored as a script-level
exception. -/
theorem getGlobal_generic_call_counterexample :
    (onGenericCall sampleSH "getGlobal" ["noSuchGlobal"]).state.script.exception =
      none ∧
    (onGenericCall sampleSH "getGlobal" ["noSuchGlobal"]).state.script.genericResult =
      GVal.scriptExc "Global \x27noSuchGlobal\x27 does not exist!" ∧
    errorConsoleEvents
      (onGenericCall sampleSH "getGlobal" ["noSuchGlobal"]).evs = [] :=
  ⟨rfl, rfl, rfl⟩

/-- C6 (amended): a validation error in a `scriptCommand` handler (here
an unknown scan name) is written to the console as an error and stored
as a `ScriptException` in `script.exception`; but a `getGlobal` lookup
failure inside a generic call is not: the `ScriptException` object is
stored in `script.genericResult` for the script thread to observe, while
`script.exception` is untouched and no error reaches the console. -/
theorem validation_error_surfacing {α : Type} (s t : SH α)
    (scanName gname : String)
    (hs : findText s.gui.registeredScans scanName = -1)
    (hg : alookup t.gui.globalDict gname = none) :
    Ev.console ("Scan " ++ scanName ++ " does not exist.") true ∈
      (onSetScan s scanName).evs ∧
    (onSetScan s scanName).state.script.exception =
      some ("Scan " ++ scanName ++ " does not exist.") ∧
    (onGenericCall t "getGlobal" [gname]).state.script.genericResult =
      GVal.scriptExc ("Global \x27" ++ gname ++ "\x27 does not exist!") ∧
    (onGenericCall t "getGlobal" [gname]).state.script.exception =
      t.script.exception ∧
    errorConsoleEvents (onGenericCall t "getGlobal" [gname]).evs = [] := by
  have hb : onSetScanBody s scanName =
      { state := s, evs := [], error := true,
        message := some ("Scan " ++ scanName ++ " does not exist.") } := by
    simp [onSetScanBody, hs]
  have hmsg : msgTruthy (some ("Scan " ++ scanName ++ " does not exist."))
      = true :=
    msgTruthy_of_ne (append_ne_empty_right _ _ (by decide))
  have hgb : onGenericCallBody t "getGlobal" [gname] =
      { state := { t with script := { t.script with genericResult := GVal.scriptExc ("Global \x27" ++ gname ++ "\x27 does not exist!") } },
        evs := [Ev.acquire, Ev.release, Ev.wake CV.genericWait],
        error := false,
        message := some ("getGlobal" ++ pyTupleRepr [gname] ++ " executed") } := by
    simp [onGenericCallBody, dispatchGeneric, getGlobal, hg]
  have hgmsg : msgTruthy
      (some ("getGlobal" ++ pyTupleRepr [gname] ++ " executed")) = true :=
    msgTruthy_of_ne (append_ne_empty_right _ _ (by decide))
  refine ⟨?_, ?_, ?_, ?_, ?_⟩
  · simp [onSetScan, scriptCommand, hb, hmsg]
  · simp [onSetScan, scriptCommand, hb, hmsg, setExc]
  · simp [onGenericCall, scriptCommand, hgb, hgmsg]
  · simp [onGenericCall, scriptCommand, hgb, hgmsg]
  · simp [onGenericCall, scriptCommand, hgb, hgmsg, errorConsoleEvents,
      List.filter]

/-- Witness for the amended C6 at a concrete state. -/
theorem validation_error_surfacing_witness :
    Ev.console "Scan Scan_B does not exist." true ∈
      (onSetScan sampleSH "Scan_B").evs ∧
    errorConsoleEvents
      (onGenericCall sampleSH "getGlobal" ["noSuchGlobal"]).evs = [] := by
  have h := validation_error_surfacing sampleSH sampleSH "Scan_B"
    "noSuchGlobal" (by decide) (by decide)
  exact ⟨h.1, h.2.2.2.2⟩

/-! ### C7: adapter setValue contracts -/

/-- C7 counterexample: `DCVoltageControl.setValue` on the configured
output channel `Enable Remote Control` with the quantity `2` (converted
mode `2 ∉ {0, 1, 255}`) raises `ValueError` instead of returning the
quantity, so `setValue` does not return its argument for every configured
output channel and quantity. -/
theorem DCVoltageControl_setValue_raises_counterexample :
    DCVoltageControl_setValue "Enable Remote Control" ⟨2, ""⟩ = none := by
  have h2 : pyInt (m_as ⟨2, ""⟩ "") = 2 := by
    norm_num [pyInt, m_as, show unitFactor "" = 1 from rfl]
  simp [DCVoltageControl_setValue, h2]

/-- C7 (amended): for every instrument adapter class in
`StandardExternalParameter.py` (SRS_DS345_FunctionGenerator,
LaserFreqPID, DCVoltageControl, FourRodOvenControl, RFController,
SANAControl) and every configured output channel, a
`setValue(channel, quantity)` call that completes without raising
returns exactly the quantity it was given, and any value handed to the
vendor API is that quantity converted with `m_as` to the unit the
adapter's lookup tables configure for the channel (the `_outputLookup`
unit for the DS345 and the PID lock, volts for DC voltage and SANA
channels, amperes/volts for the oven set-channels, `Hz` for RF
frequency, dimensionless for RF power and output state), after the
adapter's type coercion or serialization; `DCVoltageControl` raises
`ValueError` on `Enable Remote Control` unless the converted integer
mode is 0, 1 or 255. -/
theorem setValue_returns_and_converts (c1 fn u : String) (v1 : Qty)
    (c2 : String) (dch : ℕ) (v2 : Qty) (v3 : Qty)
    (c4 rfc param : String) (v4 : Qty)
    (c5 cn u5 : String) (setFunc : ℚ → String) (v5 : Qty)
    (c6 : String) (v6 : Qty) (c7 sch : String) (v7 : Qty)
    (h1 : ds345OutputLookup c1 = some (fn, u))
    (h2 : dcOutputLookup c2 = some dch)
    (h3 : pyInt (m_as v3 "") = 0 ∨ pyInt (m_as v3 "") = 1 ∨
      pyInt (m_as v3 "") = 255)
    (h4 : rfOutputLookup c4 = some (rfc, param))
    (h5 : pidOutputLookup c5 = some (cn, u5, setFunc))
    (h7 : sanaOutputLookup c7 = some sch) :
    SRS_DS345_setValue c1 v1 =
      some (v1, VendorCall.ds345SetAttr fn (m_as v1 u)) ∧
    DCVoltageControl_setValue c2 v2 =
      some (v2, VendorCall.dcSetVolt dch (m_as v2 "V")) ∧
    DCVoltageControl_setValue "Enable Remote Control" v3 =
      some (v3, VendorCall.dcSetModeAll (pyInt (m_as v3 ""))) ∧
    RFController_setValue c4 v4 = some (v4,
      if param = "frequency" then
        VendorCall.rfSetFrequency rfc (pyInt (m_as v4 "Hz"))
      else if param = "power" then VendorCall.rfSetPower rfc (m_as v4 "")
      else VendorCall.rfSetOutputState rfc (pyBool (m_as v4 ""))) ∧
    LaserFreqPID_setValue c5 v5 =
      some (v5, VendorCall.pidSetConfig cn (setFunc (m_as v5 u5))) ∧
    FourRodOvenControl_setValue "Oven current set" v6 =
      (v6, some (VendorCall.ovenSetCurrent (m_as v6 "A"))) ∧
    FourRodOvenControl_setValue "Oven voltage set" v6 =
      (v6, some (VendorCall.ovenSetVoltage (m_as v6 "V"))) ∧
    (FourRodOvenControl_setValue c6 v6).1 = v6 ∧
    SANAControl_setValue c7 v7 =
      some (v7, VendorCall.sanaSetChannelVoltage sch (m_as v7 "V")) := by
  refine ⟨?_, ?_, ?_, ?_, ?_, ?_, ?_, ?_, ?_⟩
  · simp [SRS_DS345_setValue, h1]
  · have hne : ¬ (c2 = "Enable Remote Control") := by
      intro hc
      subst hc
      rw [show dcOutputLookup "Enable Remote Control" = none from rfl] at h2
      exact absurd h2 (by simp)
    simp [DCVoltageControl_setValue, hne, h2]
  · simp [DCVoltageControl_setValue, h3]
  · simp only [RFController_setValue, h4]
    split_ifs with ha hb
    · subst ha
      rfl
    · subst hb
      rfl
    · have hru : rfUnitLookup param = "" := by
        unfold rfUnitLookup
        split <;> simp_all
      rw [hru]
  · simp [LaserFreqPID_setValue, h5]
  · rfl
  · rfl
  · unfold FourRodOvenControl_setValue
    split_ifs <;> rfl
  · simp [SANAControl_setValue, h7]

/-- Witness for the amended C7 at concrete channels and quantities. -/
theorem setValue_returns_and_converts_witness :
    SRS_DS345_setValue "Frequency" ⟨2, "kHz"⟩ =
      some (⟨2, "kHz"⟩, VendorCall.ds345SetAttr "frequency"
        (m_as ⟨2, "kHz"⟩ "Hz")) ∧
    DCVoltageControl_setValue "Enable Remote Control" ⟨1, ""⟩ =
      some (⟨1, ""⟩, VendorCall.dcSetModeAll (pyInt (m_as ⟨1, ""⟩ ""))) ∧
    FourRodOvenControl_setValue "Oven current set" ⟨6, "A"⟩ =
      (⟨6, "A"⟩, some (VendorCall.ovenSetCurrent (m_as ⟨6, "A"⟩ "A"))) ∧
    SANAControl_setValue "dmd_FP_mirror_horizontal" ⟨7, "V"⟩ =
      some (⟨7, "V"⟩, VendorCall.sanaSetChannelVoltage "2A"
        (m_as ⟨7, "V"⟩ "V")) := by
  have h1 : pyInt (m_as ⟨1, ""⟩ "") = 1 := by
    norm_num [pyInt, m_as, show unitFactor "" = 1 from rfl]
  have h := setValue_returns_and_converts "Frequency" "frequency" "Hz"
    ⟨2, "kHz"⟩ "Rod_1_Voltage" 2 ⟨3, "V"⟩ ⟨1, ""⟩
    "frequency_cooling_eom" "four_rod_cooling_eom" "frequency" ⟨5, "MHz"⟩
    "FrequencySetpoint" "freq_setpoint" "THz"
    (fun x => "[" ++ toString x ++ "]") ⟨4, "THz"⟩
    "Oven status (0=CV, 1=CC)" ⟨6, "A"⟩ "dmd_FP_mirror_horizontal" "2A"
    ⟨7, "V"⟩ rfl rfl (Or.inr (Or.inl h1)) rfl rfl rfl
  exact ⟨h.1, h.2.2.1, h.2.2.2.2.2.1, h.2.2.2.2.2.2.2.2⟩

/-! ### C8: one wakeup, non-stale value -/

/-- C8: for each request category, a consumer waiting on the category's
condition variable when the producer event fires is woken exactly once
and the slot then holds the value produced for this request (never a
stale one): the producers overwrite the slot before (or atomically with)
the wake, so the woken consumer reads the fresh value. -/
theorem result_slot_handshake {α : Type} (s1 s2 s3 s4 : SH α)
    (d1 d2 d3 : α) (gname : String) (c1 c2 c3 c4 : Consumer)
    (h1c : c1.cv = CV.dataWait) (h1p : c1.phase = Phase.waiting)
    (h2c : c2.cv = CV.allDataWait) (h2p : c2.phase = Phase.waiting)
    (h3c : c3.cv = CV.analysisWait) (h3p : c3.phase = Phase.waiting)
    (h4c : c4.cv = CV.genericWait) (h4p : c4.phase = Phase.waiting) :
    runConsumer c1 (onData s1 d1).evs =
      { c1 with phase := Phase.woken, wakeups := c1.wakeups + 1 } ∧
    (onData s1 d1).state.script.data = some d1 ∧
    runConsumer c2 (onAllData s2 d2).evs =
      { c2 with phase := Phase.woken, wakeups := c2.wakeups + 1 } ∧
    (onAllData s2 d2).state.script.allData = some d2 ∧
    runConsumer c3 (onAnalysisResult s3 d3).evs =
      { c3 with phase := Phase.woken, wakeups := c3.wakeups + 1 } ∧
    (onAnalysisResult s3 d3).state.script.analysisResults = some d3 ∧
    runConsumer c4 (onGenericCall s4 "getGlobal" [gname]).evs =
      { c4 with phase := Phase.woken, wakeups := c4.wakeups + 1 } ∧
    (onGenericCall s4 "getGlobal" [gname]).state.script.genericResult =
      getGlobal s4 gname := by
  have hgb : onGenericCallBody s4 "getGlobal" [gname] =
      { state := { s4 with script := { s4.script with genericResult := getGlobal s4 gname } },
        evs := [Ev.acquire, Ev.release, Ev.wake CV.genericWait],
        error := false,
        message := some ("getGlobal" ++ pyTupleRepr [gname] ++ " executed") } := by
    simp [onGenericCallBody, dispatchGeneric]
  have hgmsg : msgTruthy
      (some ("getGlobal" ++ pyTupleRepr [gname] ++ " executed")) = true :=
    msgTruthy_of_ne (append_ne_empty_right _ _ (by decide))
  refine ⟨?_, rfl, ?_, rfl, ?_, rfl, ?_, ?_⟩
  · simp [onData, runConsumer, stepConsumer, h1c, h1p]
  · simp [onAllData, runConsumer, stepConsumer, h2c, h2p]
  · simp [onAnalysisResult, runConsumer, stepConsumer, h3c, h3p]
  · simp [onGenericCall, scriptCommand, hgb, hgmsg, runConsumer,
      stepConsumer, h4c, h4p]
  · simp [onGenericCall, scriptCommand, hgb, hgmsg]

/-- Witness for C8 at a concrete state and consumers. -/
theorem result_slot_handshake_witness :
    runConsumer ⟨CV.dataWait, Phase.waiting, 0⟩ (onData sampleSH 7).evs =
      ⟨CV.dataWait, Phase.woken, 1⟩ ∧
    (onData sampleSH 7).state.script.data = some 7 := by
  have h := result_slot_handshake sampleSH sampleSH sampleSH sampleSH
    7 8 9 "rfPower"
    ⟨CV.dataWait, Phase.waiting, 0⟩ ⟨CV.allDataWait, Phase.waiting, 0⟩
    ⟨CV.analysisWait, Phase.waiting, 0⟩ ⟨CV.genericWait, Phase.waiting, 0⟩
    rfl rfl rfl rfl rfl rfl rfl rfl
  exact ⟨h.1, h.2.1⟩

end IonControl
